import Mathlib

/-!
Verification of the Contract Balance & Transaction Posting Engine of the
taketwo repository.

Monetary amounts are modelled as rationals (`ℚ`): the decimal amounts the
code manipulates embed exactly, and the spec demands decimal-exact
balance arithmetic.  Dates are modelled as integers (epoch milliseconds);
JavaScript `Date` comparison is numeric comparison of that value.

Sources embedded from `src/`:
  - `src/types/transaction.ts` (data model, `COMMON_SERVICE_CODES`,
    `TransactionBalancePreview`)
  - `src/app/api/transactions/route.ts` (`createTransactionSchema`,
    GET pagination/filter construction, POST creation flow)
  - `src/app/api/residents/[id]/funding/route.ts` (`createFundingSchema`,
    PUT update flow)

The functions `getTransactionBalancePreview`, `createTransaction`,
`getTransactionsList` (in `lib/utils/transaction-storage`),
`updateFundingInResident` (in `lib/utils/resident-storage`) and
`fundingInformationSchema` (in `lib/schemas/resident`) are code of the
repository outside `src/`; definitions below that stand for them are
modelled from the spec and say so in their doc comments.
-/

namespace TakeTwo

/-- Status values from src/types/transaction.ts (`TransactionStatus`):
draft | posted | voided. -/
inductive TransactionStatus where
  | draft
  | posted
  | voided
deriving DecidableEq, Repr

/-- Transaction record from src/types/transaction.ts (fields relevant to the
balance engine; audit metadata `createdAt/createdBy/...` is carried as
needed by the lifecycle model). -/
structure Transaction where
  id : Nat
  residentId : String
  contractId : String
  occurredAt : Int
  serviceCode : String
  description : Option String
  quantity : ℚ
  unitPrice : ℚ
  amount : ℚ
  status : TransactionStatus
  note : Option String
  voidReason : Option String
deriving DecidableEq, Repr

/-- A funding record (contract) as used by the balance engine: the
`amount` originally allocated and the stored, mutated `currentBalance`
(see spec data model and src/types, e.g. `ResidentBalanceSummary`). -/
structure FundingRecord where
  id : String
  residentId : String
  amount : ℚ
  currentBalance : ℚ
  isActive : Bool
deriving DecidableEq, Repr

/-- Balance preview shape (`TransactionBalancePreview`) from
src/types/transaction.ts. -/
structure TransactionBalancePreview where
  currentBalance : ℚ
  transactionAmount : ℚ
  remainingAfterPost : ℚ
  canPost : Bool
  warningMessage : Option String
deriving DecidableEq, Repr

/-- Modelled from the spec: `getTransactionBalancePreview`
(lib/utils/transaction-storage, not under src/).  Balance Calculator
contract: `remainingAfterPost = currentBalance - transactionAmount`,
`canPost = remainingAfterPost >= 0`, and when `canPost` is false a
`warningMessage` describing the overdraft amount is set. -/
def getTransactionBalancePreview (record : FundingRecord)
    (transactionAmount : ℚ) : TransactionBalancePreview :=
  let remaining := record.currentBalance - transactionAmount
  { currentBalance := record.currentBalance
    transactionAmount := transactionAmount
    remainingAfterPost := remaining
    canPost := decide (0 ≤ remaining)
    warningMessage :=
      if 0 ≤ remaining then none
      else some ("Exceeds remaining balance by $" ++ toString (-remaining)) }

/-- The state of one contract together with its transaction ledger. -/
structure ContractState where
  record : FundingRecord
  transactions : List Transaction
deriving DecidableEq, Repr

/-- Error taxonomy of the posting workflow (spec §7). -/
inductive PostingError where
  | notFoundError
  | invalidStateError
  | insufficientBalanceError
  | validationError
deriving DecidableEq, Repr

/-- Mark the transaction with the given id as posted (status transition
only; all other fields kept). -/
def setPosted (tid : Nat) (u : Transaction) : Transaction :=
  if u.id = tid then { u with status := TransactionStatus.posted } else u

/-- Mark the transaction with the given id as voided with the given
reason. -/
def setVoided (tid : Nat) (reason : String) (u : Transaction) : Transaction :=
  if u.id = tid then
    { u with status := TransactionStatus.voided, voidReason := some reason }
  else u

/-- Modelled from the spec: the Post transition (draft → posted) of the
posting workflow (lib/utils/transaction-storage, not under src/).  Runs
the Balance Calculator against the owning contract's current balance and
the transaction amount; when `canPost` is false the transition fails with
`InsufficientBalanceError`; on success it sets the status to posted and
decrements the contract's `currentBalance` by the amount, atomically. -/
def postTransaction (s : ContractState) (tid : Nat) :
    Except PostingError ContractState :=
  match s.transactions.find? (fun t => t.id = tid) with
  | none => Except.error PostingError.notFoundError
  | some t =>
    if t.status ≠ TransactionStatus.draft then
      Except.error PostingError.invalidStateError
    else
      let preview := getTransactionBalancePreview s.record t.amount
      if preview.canPost then
        Except.ok
          { record :=
              { s.record with
                currentBalance := s.record.currentBalance - t.amount }
            transactions := s.transactions.map (setPosted tid) }
      else Except.error PostingError.insufficientBalanceError

/-- Modelled from the spec: the Void transition (posted → voided only) of
the posting workflow (lib/utils/transaction-storage, not under src/).
Requires a non-empty `voidReason`; sets the status to voided and restores
the contract's `currentBalance` by adding back the amount, atomically. -/
def voidTransaction (s : ContractState) (tid : Nat) (reason : String) :
    Except PostingError ContractState :=
  match s.transactions.find? (fun t => t.id = tid) with
  | none => Except.error PostingError.notFoundError
  | some t =>
    if t.status ≠ TransactionStatus.posted then
      Except.error PostingError.invalidStateError
    else if reason = "" then
      Except.error PostingError.validationError
    else
      Except.ok
        { record :=
            { s.record with
              currentBalance := s.record.currentBalance + t.amount }
          transactions := s.transactions.map (setVoided tid reason) }

/-- One operation of a post/void sequence. -/
inductive LedgerOp where
  | post (tid : Nat)
  | void (tid : Nat) (reason : String)
deriving DecidableEq, Repr

/-- Apply one operation; a failed operation leaves the state unchanged
(spec §7: all validation happens before any mutation, nothing is written
on failure). -/
def applyOp (s : ContractState) (op : LedgerOp) : ContractState :=
  match op with
  | LedgerOp.post tid =>
    match postTransaction s tid with
    | Except.ok s2 => s2
    | Except.error _ => s
  | LedgerOp.void tid reason =>
    match voidTransaction s tid reason with
    | Except.ok s2 => s2
    | Except.error _ => s

/-- Apply a sequence of operations left to right. -/
def applyOps (s : ContractState) (ops : List LedgerOp) : ContractState :=
  ops.foldl applyOp s

/-- Sum of the amounts of the currently posted transactions. -/
def postedSum (ts : List Transaction) : ℚ :=
  (ts.filter (fun t => t.status = TransactionStatus.posted)).foldr
    (fun t acc => t.amount + acc) 0

/-- Balance conservation invariant (spec §8):
`currentBalance == amount - sum(amount of currently posted transactions)`. -/
def balanceInvariant (s : ContractState) : Prop :=
  s.record.currentBalance = s.record.amount - postedSum s.transactions

/-- Ledger well-formedness: transaction ids are pairwise distinct
(spec data model: `id` unique). -/
def uniqueIds (s : ContractState) : Prop :=
  (s.transactions.map Transaction.id).Nodup

theorem postedSum_cons (h : Transaction) (ts : List Transaction) :
    postedSum (h :: ts) =
      (if h.status = TransactionStatus.posted then h.amount else 0) +
        postedSum ts := by
  by_cases hp : h.status = TransactionStatus.posted <;>
    simp [postedSum, List.filter_cons, hp]

theorem setPosted_id (tid : Nat) (u : Transaction) :
    (setPosted tid u).id = u.id := by
  unfold setPosted; split <;> rfl

theorem setVoided_id (tid : Nat) (reason : String) (u : Transaction) :
    (setVoided tid reason u).id = u.id := by
  unfold setVoided; split <;> rfl

theorem map_setPosted_of_not_mem (ts : List Transaction) (tid : Nat)
    (h : tid ∉ ts.map Transaction.id) : ts.map (setPosted tid) = ts := by
  induction ts with
  | nil => rfl
  | cons a rest ih =>
    simp only [List.map_cons, List.mem_cons, not_or] at h
    obtain ⟨h1, h2⟩ := h
    simp only [List.map_cons, ih h2]
    congr 1
    unfold setPosted
    rw [if_neg (fun he => h1 he.symm)]

theorem map_setVoided_of_not_mem (ts : List Transaction) (tid : Nat)
    (reason : String) (h : tid ∉ ts.map Transaction.id) :
    ts.map (setVoided tid reason) = ts := by
  induction ts with
  | nil => rfl
  | cons a rest ih =>
    simp only [List.map_cons, List.mem_cons, not_or] at h
    obtain ⟨h1, h2⟩ := h
    simp only [List.map_cons, ih h2]
    congr 1
    unfold setVoided
    rw [if_neg (fun he => h1 he.symm)]

theorem postedSum_map_setPosted (ts : List Transaction) (t : Transaction)
    (hnd : (ts.map Transaction.id).Nodup) (hmem : t ∈ ts)
    (hdraft : t.status = TransactionStatus.draft) :
    postedSum (ts.map (setPosted t.id)) = postedSum ts + t.amount := by
  induction ts with
  | nil => cases hmem
  | cons h rest ih =>
    simp only [List.map_cons, List.nodup_cons] at hnd
    obtain ⟨hnotin, hndr⟩ := hnd
    rcases List.mem_cons.mp hmem with heq | hmemr
    · subst heq
      rw [List.map_cons, map_setPosted_of_not_mem rest t.id hnotin]
      have hself : setPosted t.id t =
          { t with status := TransactionStatus.posted } := by
        unfold setPosted; rw [if_pos rfl]
      rw [hself, postedSum_cons, postedSum_cons, if_pos rfl, hdraft,
        if_neg (by decide)]
      ring
    · have hne : h.id ≠ t.id := by
        intro he
        exact hnotin (he ▸ List.mem_map_of_mem Transaction.id hmemr)
      have hkeep : setPosted t.id h = h := by
        unfold setPosted; rw [if_neg hne]
      rw [List.map_cons, hkeep, postedSum_cons, postedSum_cons,
        ih hndr hmemr]
      ring

theorem postedSum_map_setVoided (ts : List Transaction) (t : Transaction)
    (reason : String) (hnd : (ts.map Transaction.id).Nodup) (hmem : t ∈ ts)
    (hposted : t.status = TransactionStatus.posted) :
    postedSum (ts.map (setVoided t.id reason)) = postedSum ts - t.amount := by
  induction ts with
  | nil => cases hmem
  | cons h rest ih =>
    simp only [List.map_cons, List.nodup_cons] at hnd
    obtain ⟨hnotin, hndr⟩ := hnd
    rcases List.mem_cons.mp hmem with heq | hmemr
    · subst heq
      rw [List.map_cons, map_setVoided_of_not_mem rest t.id reason hnotin]
      have hself : setVoided t.id reason t =
          { t with status := TransactionStatus.voided,
                   voidReason := some reason } := by
        unfold setVoided; rw [if_pos rfl]
      rw [hself, postedSum_cons, postedSum_cons,
        if_neg (fun hc => TransactionStatus.noConfusion hc),
        if_pos hposted]
      ring
    · have hne : h.id ≠ t.id := by
        intro he
        exact hnotin (he ▸ List.mem_map_of_mem Transaction.id hmemr)
      have hkeep : setVoided t.id reason h = h := by
        unfold setVoided; rw [if_neg hne]
      rw [List.map_cons, hkeep, postedSum_cons, postedSum_cons,
        ih hndr hmemr]
      ring

theorem map_id_setPosted (ts : List Transaction) (tid : Nat) :
    (ts.map (setPosted tid)).map Transaction.id = ts.map Transaction.id := by
  rw [List.map_map]
  exact List.map_congr_left (fun a _ => setPosted_id tid a)

theorem map_id_setVoided (ts : List Transaction) (tid : Nat) (reason : String) :
    (ts.map (setVoided tid reason)).map Transaction.id =
      ts.map Transaction.id := by
  rw [List.map_map]
  exact List.map_congr_left (fun a _ => setVoided_id tid reason a)

theorem postTransaction_ok (s : ContractState) (tid : Nat) (s' : ContractState)
    (h : postTransaction s tid = Except.ok s') :
    ∃ t, s.transactions.find? (fun u => u.id = tid) = some t ∧
      t.id = tid ∧ t.status = TransactionStatus.draft ∧
      0 ≤ s.record.currentBalance - t.amount ∧
      s' = { record :=
               { s.record with
                 currentBalance := s.record.currentBalance - t.amount }
             transactions := s.transactions.map (setPosted tid) } := by
  unfold postTransaction at h
  split at h
  · cases h
  · rename_i t hfind
    split at h
    · cases h
    · rename_i hst
      simp only [getTransactionBalancePreview] at h
      split at h
      · rename_i hbal
        cases h
        have htid : t.id = tid := by simpa using List.find?_some hfind
        exact ⟨t, hfind, htid, not_not.mp hst, of_decide_eq_true hbal, rfl⟩
      · cases h

theorem voidTransaction_ok (s : ContractState) (tid : Nat) (reason : String)
    (s' : ContractState) (h : voidTransaction s tid reason = Except.ok s') :
    ∃ t, s.transactions.find? (fun u => u.id = tid) = some t ∧
      t.id = tid ∧ t.status = TransactionStatus.posted ∧
      s' = { record :=
               { s.record with
                 currentBalance := s.record.currentBalance + t.amount }
             transactions := s.transactions.map (setVoided tid reason) } := by
  unfold voidTransaction at h
  split at h
  · cases h
  · rename_i t hfind
    split at h
    · cases h
    · rename_i hst
      split at h
      · cases h
      · cases h
        have htid : t.id = tid := by simpa using List.find?_some hfind
        exact ⟨t, hfind, htid, not_not.mp hst, rfl⟩

theorem postTransaction_preserves (s : ContractState) (tid : Nat)
    (s2 : ContractState) (hinv : balanceInvariant s) (hids : uniqueIds s)
    (hpost : postTransaction s tid = Except.ok s2) :
    balanceInvariant s2 ∧ uniqueIds s2 := by
  obtain ⟨t, hfind, htid, hdraft, hbal, hs2⟩ :=
    postTransaction_ok s tid s2 hpost
  have hmem := List.mem_of_find?_eq_some hfind
  subst hs2
  constructor
  · show s.record.currentBalance - t.amount =
      s.record.amount - postedSum (s.transactions.map (setPosted tid))
    rw [← htid, postedSum_map_setPosted s.transactions t hids hmem hdraft,
      hinv]
    ring
  · show (List.map Transaction.id
      (s.transactions.map (setPosted tid))).Nodup
    rw [map_id_setPosted]
    exact hids

theorem voidTransaction_preserves (s : ContractState) (tid : Nat)
    (reason : String) (s2 : ContractState) (hinv : balanceInvariant s)
    (hids : uniqueIds s)
    (hvoid : voidTransaction s tid reason = Except.ok s2) :
    balanceInvariant s2 ∧ uniqueIds s2 := by
  obtain ⟨t, hfind, htid, hposted, hs2⟩ :=
    voidTransaction_ok s tid reason s2 hvoid
  have hmem := List.mem_of_find?_eq_some hfind
  subst hs2
  constructor
  · show s.record.currentBalance + t.amount =
      s.record.amount - postedSum (s.transactions.map (setVoided tid reason))
    rw [← htid,
      postedSum_map_setVoided s.transactions t reason hids hmem hposted,
      hinv]
    ring
  · show (List.map Transaction.id
      (s.transactions.map (setVoided tid reason))).Nodup
    rw [map_id_setVoided]
    exact hids

theorem applyOp_preserves (s : ContractState) (op : LedgerOp)
    (hinv : balanceInvariant s) (hids : uniqueIds s) :
    balanceInvariant (applyOp s op) ∧ uniqueIds (applyOp s op) := by
  cases op with
  | post tid =>
    cases hpost : postTransaction s tid with
    | error e =>
      have heq : applyOp s (LedgerOp.post tid) = s := by
        simp [applyOp, hpost]
      rw [heq]
      exact ⟨hinv, hids⟩
    | ok s2 =>
      have heq : applyOp s (LedgerOp.post tid) = s2 := by
        simp [applyOp, hpost]
      rw [heq]
      exact postTransaction_preserves s tid s2 hinv hids hpost
  | void tid reason =>
    cases hvoid : voidTransaction s tid reason with
    | error e =>
      have heq : applyOp s (LedgerOp.void tid reason) = s := by
        simp [applyOp, hvoid]
      rw [heq]
      exact ⟨hinv, hids⟩
    | ok s2 =>
      have heq : applyOp s (LedgerOp.void tid reason) = s2 := by
        simp [applyOp, hvoid]
      rw [heq]
      exact voidTransaction_preserves s tid reason s2 hinv hids hvoid

theorem applyOps_preserves (s : ContractState) (ops : List LedgerOp)
    (hinv : balanceInvariant s) (hids : uniqueIds s) :
    balanceInvariant (applyOps s ops) ∧ uniqueIds (applyOps s ops) := by
  induction ops generalizing s with
  | nil => exact ⟨hinv, hids⟩
  | cons op rest ih =>
    obtain ⟨hinv2, hids2⟩ := applyOp_preserves s op hinv hids
    exact ih (applyOp s op) hinv2 hids2

/-- Creation input (`TransactionCreateInput`) from
src/types/transaction.ts: the body of
POST /api/transactions after zod coercion.  `amount` is the optional
override. -/
structure TransactionCreateInput where
  residentId : String
  contractId : String
  occurredAt : Int
  serviceCode : String
  description : Option String
  quantity : ℚ
  unitPrice : ℚ
  amount : Option ℚ
  note : Option String
deriving DecidableEq, Repr

/-- Validation of `createTransactionSchema` from
src/app/api/transactions/route.ts:
residentId, contractId and serviceCode must be non-empty strings
(`z.string().min(1)`), quantity positive, unitPrice non-negative, amount
(when present) non-negative. -/
def createTransactionValid (i : TransactionCreateInput) : Bool :=
  decide (1 ≤ i.residentId.length) &&
  decide (1 ≤ i.contractId.length) &&
  decide (1 ≤ i.serviceCode.length) &&
  decide (0 < i.quantity) &&
  decide (0 ≤ i.unitPrice) &&
  (match i.amount with
   | some a => decide (0 ≤ a)
   | none => true)

/-- The transaction amount the POST route feeds to the balance preview
(src/app/api/transactions/route.ts line 175):
`input.amount || (input.quantity * input.unitPrice)`.  JavaScript `||`
falls through both on `undefined` and on `0` (both falsy). -/
def previewAmount (i : TransactionCreateInput) : ℚ :=
  match i.amount with
  | some a => if a = 0 then i.quantity * i.unitPrice else a
  | none => i.quantity * i.unitPrice

/-- Known service codes (`COMMON_SERVICE_CODES`) from
src/types/transaction.ts (the `code`
field of each entry). -/
def COMMON_SERVICE_CODES : List String :=
  ["SDA_RENT", "SIL_SUPPORT", "CORE_SUPPORT", "CAPACITY_BUILDING",
   "TRANSPORT", "EQUIPMENT", "THERAPY", "RESPITE", "OTHER"]

/-- Modelled from the spec: `createTransaction`
(lib/utils/transaction-storage, not under src/).  Create (→ draft):
builds a draft transaction; `amount` defaults to `quantity × unitPrice`
when absent.  Draft creation does not touch the contract balance. -/
def createTransaction (i : TransactionCreateInput) (newId : Nat) :
    Transaction :=
  { id := newId, residentId := i.residentId, contractId := i.contractId,
    occurredAt := i.occurredAt, serviceCode := i.serviceCode,
    description := i.description, quantity := i.quantity,
    unitPrice := i.unitPrice,
    amount := match i.amount with
              | some a => a
              | none => i.quantity * i.unitPrice,
    status := TransactionStatus.draft, note := i.note, voidReason := none }

/-- POST /api/transactions (src/app/api/transactions/route.ts): validate
with `createTransactionSchema`; on success compute the balance preview
and create the transaction unconditionally — the preview is returned
alongside the created transaction and is never consulted to block
creation. -/
def postTransactionsRoute (i : TransactionCreateInput)
    (record : FundingRecord) (newId : Nat) :
    Option (Transaction × TransactionBalancePreview) :=
  if createTransactionValid i then
    some (createTransaction i newId,
      getTransactionBalancePreview record (previewAmount i))
  else none

/-- The enumerated funding types of `createFundingSchema`
(src/app/api/residents/[id]/funding/route.ts). -/
def FUNDING_TYPES : List String :=
  ["NDIS", "Government", "Private", "Family", "Other"]

/-- The enumerated drawdown rates of `createFundingSchema`. -/
def DRAWDOWN_RATES : List String := ["daily", "weekly", "monthly"]

/-- Model of JavaScript `parseInt(s, 10)`: skip leading spaces, optional
sign, then the longest leading run of decimal digits; `none` models the
NaN result (no leading digits). -/
def jsParseInt (s : String) : Option Int :=
  let cs := s.data.dropWhile (fun c => c = ' ')
  match cs with
  | '-' :: rest =>
    let ds := rest.takeWhile Char.isDigit
    if ds = [] then none
    else some (-(ds.foldl (fun acc c => 10 * acc + (c.toNat - 48)) 0 : Nat))
  | '+' :: rest =>
    let ds := rest.takeWhile Char.isDigit
    if ds = [] then none
    else some ((ds.foldl (fun acc c => 10 * acc + (c.toNat - 48)) 0 : Nat))
  | rest =>
    let ds := rest.takeWhile Char.isDigit
    if ds = [] then none
    else some ((ds.foldl (fun acc c => 10 * acc + (c.toNat - 48)) 0 : Nat))

/-- Page parameter: `parseInt(searchParams.get('page') || '1', 10)`
(src/app/api/transactions/route.ts line 54).  `none` for the query
parameter models an absent parameter (`get` returned null); the empty
string is falsy in JavaScript, so it also falls back to the default. -/
def parsedPage (param : Option String) : Option Int :=
  jsParseInt (match param with
    | none => "1"
    | some s => if s = "" then "1" else s)

/-- Page size: `Math.min(parseInt(searchParams.get('pageSize') || '25',
10), 100)` (src/app/api/transactions/route.ts line 55).  `Math.min` of
NaN and 100 is NaN, hence `Option.map`. -/
def parsedPageSize (param : Option String) : Option Int :=
  (jsParseInt (match param with
    | none => "25"
    | some s => if s = "" then "25" else s)).map (fun n => min n 100)

/-- A stored funding record on a resident, with the fields updatable
through PUT /api/residents/[id]/funding. -/
structure StoredFunding where
  id : String
  type : String
  amount : ℚ
  startDate : Int
  endDate : Option Int
  description : Option String
  isActive : Bool
  drawdownRate : String
  autoDrawdown : Bool
  renewalDate : Option Int
deriving DecidableEq, Repr

/-- A funding-update payload: `some` marks a supplied field. -/
structure FundingUpdates where
  type : Option String
  amount : Option ℚ
  startDate : Option Int
  endDate : Option Int
  description : Option String
  isActive : Option Bool
  drawdownRate : Option String
  autoDrawdown : Option Bool
  renewalDate : Option Int
deriving DecidableEq, Repr

/-- Modelled from the spec: the every-field-optional variant of
`fundingInformationSchema` (lib/schemas/resident, not under src/) as PUT
/api/residents/[id]/funding uses it: each supplied field is validated by
the creation rules; the result is the list of offending field paths. -/
def fundingUpdateIssues (u : FundingUpdates) : List String :=
  (match u.type with
   | some t => if t ∈ FUNDING_TYPES then [] else ["type"]
   | none => []) ++
  (match u.amount with
   | some a => if 0 ≤ a ∧ a ≤ 999999.99 then [] else ["amount"]
   | none => []) ++
  (match u.description with
   | some d => if d.length ≤ 200 then [] else ["description"]
   | none => []) ++
  (match u.drawdownRate with
   | some r => if r ∈ DRAWDOWN_RATES then [] else ["drawdownRate"]
   | none => [])

/-- Modelled from the spec: `updateFundingInResident`
(lib/utils/resident-storage, not under src/): merge the supplied fields
into the stored record; unsupplied fields retain their prior values. -/
def applyFundingUpdates (f : StoredFunding) (u : FundingUpdates) :
    StoredFunding :=
  { f with
    type := u.type.getD f.type
    amount := u.amount.getD f.amount
    startDate := u.startDate.getD f.startDate
    endDate := match u.endDate with | some e => some e | none => f.endDate
    description := match u.description with
                   | some d => some d
                   | none => f.description
    isActive := u.isActive.getD f.isActive
    drawdownRate := u.drawdownRate.getD f.drawdownRate
    autoDrawdown := u.autoDrawdown.getD f.autoDrawdown
    renewalDate := match u.renewalDate with
                   | some r => some r
                   | none => f.renewalDate }

/-- PUT /api/residents/[id]/funding (src/app/api/residents/[id]/funding/
route.ts): validation runs before any mutation; only when it passes is
the stored record merged. -/
def putFunding (f : StoredFunding) (u : FundingUpdates) :
    Except (List String) StoredFunding :=
  if fundingUpdateIssues u = [] then Except.ok (applyFundingUpdates f u)
  else Except.error (fundingUpdateIssues u)

/-- The stored record after a PUT: unchanged when the PUT failed. -/
def putFundingState (f : StoredFunding) (u : FundingUpdates) :
    StoredFunding :=
  match putFunding f u with
  | Except.ok f2 => f2
  | Except.error _ => f

/-- A query parameter as the GET route reads it:
`searchParams.get(name)` returns null for an absent parameter (never
undefined) or the raw string. -/
inductive QueryParam where
  | null
  | str (s : String)
deriving DecidableEq, Repr

/-- Coercion `z.coerce.date()` applied to a query parameter, with `p`
standing for JavaScript date-string parsing (`new Date(s)`; `none`
models an Invalid Date, which fails the zod date check).  On `null` the
coercion is `new Date(null)`, the VALID epoch date 1970-01-01 (0 in
epoch milliseconds), so an absent date parameter coerces successfully to
the epoch.  The `.optional()` wrapper only passes `undefined` through,
which `searchParams.get` never produces. -/
def coerceDate (p : String → Option Int) (v : QueryParam) : Option Int :=
  match v with
  | QueryParam.null => some 0
  | QueryParam.str s => p s

/-- `z.string().optional()` applied to a query parameter: a string
passes, `null` is neither a string nor undefined and fails. -/
def asString (v : QueryParam) : Option String :=
  match v with
  | QueryParam.null => none
  | QueryParam.str s => some s

/-- The filters object after a SUCCESSFUL `filtersSchema.safeParse`: the
two date fields are always present (null coerced to the epoch date) and
the six string fields are always present (null fails the parse). -/
structure ParsedFilters where
  dateFrom : Int
  dateTo : Int
  residentIds : String
  contractIds : String
  houseIds : String
  statuses : String
  serviceCode : String
  search : String
deriving DecidableEq, Repr

/-- `filtersSchema.safeParse(rawFilters)` of GET /api/transactions
(src/app/api/transactions/route.ts lines 28-37 and 58-69): every key of
`rawFilters` is present with a null-or-string value; the parse succeeds
iff both date coercions produce valid dates and every string field is an
actual string.  `none` models the 400 response. -/
def parseFilters (p : String → Option Int)
    (dateFrom dateTo residentIds contractIds houseIds statuses
      serviceCode search : QueryParam) : Option ParsedFilters :=
  (coerceDate p dateFrom).bind fun df =>
  (coerceDate p dateTo).bind fun dt =>
  (asString residentIds).bind fun ri =>
  (asString contractIds).bind fun ci =>
  (asString houseIds).bind fun hi =>
  (asString statuses).bind fun st =>
  (asString serviceCode).bind fun sc =>
  (asString search).map fun se =>
  { dateFrom := df, dateTo := dt, residentIds := ri, contractIds := ci,
    houseIds := hi, statuses := st, serviceCode := sc, search := se }

/-- JavaScript truthiness of a Date object: objects are always truthy
(even the Invalid Date object, and in particular the epoch date). -/
def dateTruthy (_ : Int) : Bool := true

/-- GET /api/transactions filter construction (src/app/api/transactions/
route.ts lines 83-88): `if (filtersResult.data?.dateFrom &&
filtersResult.data?.dateTo)` — after a successful parse both fields hold
Date objects, which are always truthy, so `filters.dateRange` is set on
every successful parse. -/
def buildDateRange (f : ParsedFilters) : Option (Int × Int) :=
  if dateTruthy f.dateFrom && dateTruthy f.dateTo then
    some (f.dateFrom, f.dateTo)
  else none

/-- Modelled from the spec: the date-range part of the list filter in
`getTransactionsList` (lib/utils/transaction-storage, not under src/):
filters are conjunctive and absent filters impose no constraint. -/
def matchesDateRange (dr : Option (Int × Int)) (t : Transaction) : Bool :=
  match dr with
  | none => true
  | some (a, b) => decide (a ≤ t.occurredAt) && decide (t.occurredAt ≤ b)

/-- Example data mirroring the spec §8 scenario: a contract with
`amount = 1000`, `currentBalance = 1000`, a draft transaction of
`quantity = 2, unitPrice = 150` hence `amount = 300`, and a second draft
transaction of `amount = 800`. -/
def contractA : FundingRecord :=
  { id := "c1", residentId := "r1", amount := 1000,
    currentBalance := 1000, isActive := true }

def txA : Transaction :=
  { id := 1, residentId := "r1", contractId := "c1", occurredAt := 0,
    serviceCode := "SDA_RENT", description := none, quantity := 2,
    unitPrice := 150, amount := 300, status := TransactionStatus.draft,
    note := none, voidReason := none }

def txB : Transaction :=
  { id := 2, residentId := "r1", contractId := "c1", occurredAt := 0,
    serviceCode := "SIL_SUPPORT", description := none, quantity := 1,
    unitPrice := 800, amount := 800, status := TransactionStatus.draft,
    note := none, voidReason := none }

def stateA : ContractState :=
  { record := contractA, transactions := [txA, txB] }

/-- State `stateA` after posting transaction 1: balance 700, txA posted. -/
def stateB : ContractState :=
  { record := { contractA with currentBalance := 700 },
    transactions := [{ txA with status := TransactionStatus.posted }, txB] }

/-- C1: for every funding record and every sequence of post and void
operations on its transactions, the record's `currentBalance` equals its
`amount` minus the sum of the amounts of its transactions currently in
posted status (draft and voided transactions contribute nothing), at
every point in the sequence (i.e. after every initial segment of it). -/
theorem claim_C1_balance_conservation (s : ContractState)
    (ops : List LedgerOp) (hinv : balanceInvariant s) (hids : uniqueIds s)
    (n : Nat) : balanceInvariant (applyOps s (ops.take n)) :=
  (applyOps_preserves s (ops.take n) hinv hids).1

theorem claim_C1_witness :
    balanceInvariant stateA ∧ uniqueIds stateA ∧
      balanceInvariant (applyOps stateA
        (([LedgerOp.post 1, LedgerOp.post 2,
           LedgerOp.void 1 "duplicate"]).take 3)) :=
  ⟨by unfold balanceInvariant; simp [stateA, contractA, txA, txB, postedSum], by unfold uniqueIds; decide,
    claim_C1_balance_conservation stateA
      [LedgerOp.post 1, LedgerOp.post 2, LedgerOp.void 1 "duplicate"]
      (by unfold balanceInvariant; simp [stateA, contractA, txA, txB, postedSum]) (by unfold uniqueIds; decide) 3⟩

/-- C2: posting a draft transaction whose amount exceeds the owning
contract's `currentBalance` fails with `InsufficientBalanceError` and
leaves the state (hence `currentBalance`) unchanged; moreover any
successful post leaves a non-negative `currentBalance`. -/
theorem claim_C2_insufficient_balance (s : ContractState) (tid : Nat)
    (t : Transaction)
    (hfind : s.transactions.find? (fun u => u.id = tid) = some t)
    (hdraft : t.status = TransactionStatus.draft)
    (hover : s.record.currentBalance < t.amount) :
    postTransaction s tid =
        Except.error PostingError.insufficientBalanceError ∧
      applyOp s (LedgerOp.post tid) = s ∧
      ∀ s2 tid2 s2', postTransaction s2 tid2 = Except.ok s2' →
        0 ≤ s2'.record.currentBalance := by
  have hneg : ¬ (0 ≤ s.record.currentBalance - t.amount) := by linarith
  have herr : postTransaction s tid =
      Except.error PostingError.insufficientBalanceError := by
    simp [postTransaction, hfind, getTransactionBalancePreview, hdraft, hneg]
  refine ⟨herr, by simp [applyOp, herr], ?_⟩
  intro s2 tid2 s2' hok
  obtain ⟨t2, _, _, _, hbal2, hs2⟩ := postTransaction_ok s2 tid2 s2' hok
  subst hs2
  exact hbal2

theorem claim_C2_witness :
    postTransaction stateB 2 =
        Except.error PostingError.insufficientBalanceError ∧
      applyOp stateB (LedgerOp.post 2) = stateB :=
  ⟨(claim_C2_insufficient_balance stateB 2 txB (by decide) (by decide)
      (by decide)).1,
   (claim_C2_insufficient_balance stateB 2 txB (by decide) (by decide)
      (by decide)).2.1⟩

/-- C3: the balance preview satisfies
`remainingAfterPost = currentBalance - transactionAmount`,
`canPost = (remainingAfterPost ≥ 0)`, and `warningMessage` is set
whenever `canPost` is false. -/
theorem claim_C3_balance_preview (record : FundingRecord) (amt : ℚ) :
    (getTransactionBalancePreview record amt).remainingAfterPost =
        record.currentBalance - amt ∧
      ((getTransactionBalancePreview record amt).canPost = true ↔
        0 ≤ (getTransactionBalancePreview record amt).remainingAfterPost) ∧
      ((getTransactionBalancePreview record amt).canPost = false →
        ((getTransactionBalancePreview record amt).warningMessage).isSome
          = true) := by
  refine ⟨rfl, by simp [getTransactionBalancePreview], ?_⟩
  intro hfalse
  simp only [getTransactionBalancePreview, decide_eq_false_iff_not] at hfalse
  simp [getTransactionBalancePreview, hfalse]

theorem claim_C3_witness :
    (getTransactionBalancePreview contractA 1200).remainingAfterPost =
        contractA.currentBalance - 1200 ∧
      ((getTransactionBalancePreview contractA 1200).warningMessage).isSome
        = true :=
  ⟨(claim_C3_balance_preview contractA 1200).1,
   (claim_C3_balance_preview contractA 1200).2.2 (by simp [getTransactionBalancePreview, contractA]; norm_num)⟩

/-- An otherwise-valid creation input whose explicit `amount` is 0. -/
def inputZeroAmount : TransactionCreateInput :=
  { residentId := "r1", contractId := "c1", occurredAt := 0,
    serviceCode := "SDA_RENT", description := none, quantity := 2,
    unitPrice := 150, amount := some 0, note := none }

/-- A creation input with an explicit nonzero `amount` override of 5. -/
def inputFiveAmount : TransactionCreateInput :=
  { residentId := "r1", contractId := "c1", occurredAt := 0,
    serviceCode := "SDA_RENT", description := none, quantity := 2,
    unitPrice := 150, amount := some 5, note := none }

/-- An otherwise-valid creation input whose `serviceCode` is a non-empty
string outside `COMMON_SERVICE_CODES`. -/
def inputUnknownCode : TransactionCreateInput :=
  { residentId := "r1", contractId := "c1", occurredAt := 0,
    serviceCode := "BOGUS", description := none, quantity := 1,
    unitPrice := 10, amount := none, note := none }

/-- A valid creation input of amount 800 against a low-balance record. -/
def inputOverdraft : TransactionCreateInput :=
  { residentId := "r1", contractId := "c1", occurredAt := 0,
    serviceCode := "SIL_SUPPORT", description := none, quantity := 1,
    unitPrice := 800, amount := some 800, note := none }

/-- A contract holding only 700 of its original 1000. -/
def recordLow : FundingRecord :=
  { id := "c1", residentId := "r1", amount := 1000, currentBalance := 700,
    isActive := true }

/-- C4 counterexample: an explicit `amount` of 0 does NOT take
precedence: the route computes `input.amount || (quantity * unitPrice)`
and `0` is falsy in JavaScript, so the preview amount is
`2 × 150 = 300`, not the supplied 0. -/
theorem claim_C4_counterexample :
    inputZeroAmount.amount = some 0 ∧
      createTransactionValid inputZeroAmount = true ∧
      previewAmount inputZeroAmount = 300 ∧
      previewAmount inputZeroAmount ≠ 0 := by
  refine ⟨rfl, by decide, ?_, ?_⟩
  · norm_num [previewAmount, inputZeroAmount]
  · norm_num [previewAmount, inputZeroAmount]

/-- C4 (amended): when `amount` is absent OR explicitly 0, the amount
used for the balance preview is `quantity × unitPrice`; a supplied
nonzero amount takes precedence. -/
theorem claim_C4_amount_default (i : TransactionCreateInput) :
    ((i.amount = none ∨ i.amount = some 0) →
        previewAmount i = i.quantity * i.unitPrice) ∧
      (∀ a : ℚ, i.amount = some a → a ≠ 0 → previewAmount i = a) := by
  constructor
  · rintro (h | h) <;> simp [previewAmount, h]
  · intro a ha hne
    simp [previewAmount, ha, hne]

theorem claim_C4_witness :
    previewAmount inputZeroAmount =
        inputZeroAmount.quantity * inputZeroAmount.unitPrice ∧
      previewAmount inputFiveAmount = 5 :=
  ⟨(claim_C4_amount_default inputZeroAmount).1 (Or.inr rfl),
   (claim_C4_amount_default inputFiveAmount).2 5 rfl (by norm_num)⟩

/-- C5 counterexample: the API schema only checks that `serviceCode` is a
non-empty string (`z.string().min(1)`); "BOGUS" is not one of the known
`COMMON_SERVICE_CODES` yet the input passes validation. -/
theorem claim_C5_counterexample :
    createTransactionValid inputUnknownCode = true ∧
      inputUnknownCode.serviceCode ∉ COMMON_SERVICE_CODES ∧
      inputUnknownCode.serviceCode ≠ "" := by
  refine ⟨by decide, by decide, by decide⟩

/-- C5 (amended): every input accepted by `createTransactionSchema` has a
non-empty `serviceCode`; membership in the known set of service codes is
not required by the API validation (the known set only populates the UI
dropdown). -/
theorem claim_C5_service_code_nonempty (i : TransactionCreateInput)
    (h : createTransactionValid i = true) : 1 ≤ i.serviceCode.length := by
  simp only [createTransactionValid, Bool.and_eq_true,
    decide_eq_true_eq] at h
  exact h.1.1.1.2

theorem claim_C5_witness :
    createTransactionValid inputUnknownCode = true ∧
      1 ≤ inputUnknownCode.serviceCode.length :=
  ⟨by decide, claim_C5_service_code_nonempty inputUnknownCode (by decide)⟩

/-- C7 counterexample: the route never clamps from below: `page=0` is
used as page 0 (not 1), and `pageSize=0` is used as 0 (outside
`[1, 100]`). -/
theorem claim_C7_counterexample :
    parsedPage (some "0") = some 0 ∧
      parsedPageSize (some "0") = some 0 := by
  constructor <;> decide

/-- C7 (amended): `pageSize` is clamped only from above to at most 100;
`page` and `pageSize` merely default to 1 and 25 when the parameter is
absent, with no lower clamping and NaN (`none`) on non-numeric input. -/
theorem map_min100_le (o : Option Int) (n : Int)
    (h : o.map (fun x => min x 100) = some n) : n ≤ 100 := by
  cases o with
  | none => simp at h
  | some m =>
    have h2 : some (min m 100) = some n := h
    injection h2 with h3
    rw [← h3]
    exact min_le_right m 100

theorem claim_C7_pagination (p : Option String) (n : Int)
    (h : parsedPageSize p = some n) :
    n ≤ 100 ∧ parsedPage none = some 1 ∧ parsedPageSize none = some 25 := by
  refine ⟨?_, by decide, by decide⟩
  unfold parsedPageSize at h
  exact map_min100_le _ n h

theorem claim_C7_witness :
    parsedPageSize (some "300") = some 100 ∧
      ((100 : Int) ≤ 100 ∧ parsedPage none = some 1 ∧
        parsedPageSize none = some 25) :=
  ⟨by decide, claim_C7_pagination (some "300") 100 (by decide)⟩

/-- C8: an update with any invalid supplied field fails with the list of
offending field paths and leaves the stored record unchanged; a valid
update changes exactly the supplied fields and unsupplied fields retain
their prior values. -/
theorem claim_C8_funding_update (f : StoredFunding) (u : FundingUpdates) :
    (fundingUpdateIssues u ≠ [] →
        putFunding f u = Except.error (fundingUpdateIssues u) ∧
          putFundingState f u = f) ∧
      (fundingUpdateIssues u = [] →
        putFunding f u = Except.ok (applyFundingUpdates f u) ∧
          (u.type = none → (putFundingState f u).type = f.type) ∧
          (∀ v, u.type = some v → (putFundingState f u).type = v) ∧
          (u.amount = none → (putFundingState f u).amount = f.amount) ∧
          (∀ v, u.amount = some v → (putFundingState f u).amount = v) ∧
          (u.startDate = none →
            (putFundingState f u).startDate = f.startDate) ∧
          (∀ v, u.startDate = some v →
            (putFundingState f u).startDate = v) ∧
          (u.endDate = none → (putFundingState f u).endDate = f.endDate) ∧
          (∀ v, u.endDate = some v →
            (putFundingState f u).endDate = some v) ∧
          (u.description = none →
            (putFundingState f u).description = f.description) ∧
          (∀ v, u.description = some v →
            (putFundingState f u).description = some v) ∧
          (u.isActive = none → (putFundingState f u).isActive = f.isActive) ∧
          (∀ v, u.isActive = some v → (putFundingState f u).isActive = v) ∧
          (u.drawdownRate = none →
            (putFundingState f u).drawdownRate = f.drawdownRate) ∧
          (∀ v, u.drawdownRate = some v →
            (putFundingState f u).drawdownRate = v) ∧
          (u.autoDrawdown = none →
            (putFundingState f u).autoDrawdown = f.autoDrawdown) ∧
          (∀ v, u.autoDrawdown = some v →
            (putFundingState f u).autoDrawdown = v) ∧
          (u.renewalDate = none →
            (putFundingState f u).renewalDate = f.renewalDate) ∧
          (∀ v, u.renewalDate = some v →
            (putFundingState f u).renewalDate = some v)) := by
  constructor
  · intro hne
    exact ⟨by simp [putFunding, hne],
      by simp [putFundingState, putFunding, hne]⟩
  · intro hnil
    have hst : putFundingState f u = applyFundingUpdates f u := by
      simp [putFundingState, putFunding, hnil]
    refine ⟨by simp [putFunding, hnil], ?_, ?_, ?_, ?_, ?_, ?_, ?_, ?_,
      ?_, ?_, ?_, ?_, ?_, ?_, ?_, ?_, ?_, ?_⟩ <;>
      intros <;> simp [hst, applyFundingUpdates, *]

/-- A stored funding record used by the C8 witness. -/
def storedA : StoredFunding :=
  { id := "f1", type := "NDIS", amount := 1000, startDate := 0,
    endDate := none, description := none, isActive := true,
    drawdownRate := "monthly", autoDrawdown := true, renewalDate := none }

/-- An update supplying a negative amount (invalid). -/
def badUpdate : FundingUpdates :=
  { type := none, amount := some (-5), startDate := none, endDate := none,
    description := none, isActive := none, drawdownRate := none,
    autoDrawdown := none, renewalDate := none }

theorem claim_C8_witness :
    putFunding storedA badUpdate =
        Except.error (fundingUpdateIssues badUpdate) ∧
      putFundingState storedA badUpdate = storedA :=
  (claim_C8_funding_update storedA badUpdate).1 (by decide)

/-- C9: every input accepted by the creation schema yields a created
draft transaction together with the balance preview, regardless of the
preview's outcome: a `canPost = false` preview never blocks creation. -/
theorem claim_C9_create_never_blocked (i : TransactionCreateInput)
    (record : FundingRecord) (newId : Nat)
    (h : createTransactionValid i = true) :
    postTransactionsRoute i record newId =
        some (createTransaction i newId,
          getTransactionBalancePreview record (previewAmount i)) ∧
      (createTransaction i newId).status = TransactionStatus.draft :=
  ⟨by simp [postTransactionsRoute, h], rfl⟩

theorem claim_C9_witness :
    createTransactionValid inputOverdraft = true ∧
      (getTransactionBalancePreview recordLow
        (previewAmount inputOverdraft)).canPost = false ∧
      postTransactionsRoute inputOverdraft recordLow 7 =
        some (createTransaction inputOverdraft 7,
          getTransactionBalancePreview recordLow
            (previewAmount inputOverdraft)) :=
  ⟨by decide,
   by norm_num [getTransactionBalancePreview, recordLow, previewAmount,
     inputOverdraft],
   (claim_C9_create_never_blocked inputOverdraft recordLow 7 (by decide)).1⟩

/-- A concrete stand-in for JavaScript date-string parsing in the C10
trace: the string "2024-06-01" parses to the date value 100 (abstract
epoch units); everything else is an Invalid Date. -/
def demoDateParse (s : String) : Option Int :=
  if s = "2024-06-01" then some 100 else none

/-- The filters produced by a request supplying `dateFrom=2024-06-01`,
no `dateTo` (null, coerced to the epoch 0), and the six string
parameters as empty strings. -/
def demoFilters : ParsedFilters :=
  { dateFrom := 100, dateTo := 0, residentIds := "", contractIds := "",
    houseIds := "", statuses := "", serviceCode := "", search := "" }

/-- C10 counterexample: a request supplying `dateFrom` but not `dateTo`
(with the string parameters supplied, so the parse succeeds) gets
`dateRange` SET with the epoch date standing in for the missing
`dateTo` — `new Date(null)` is the valid epoch date, and Date objects
are truthy — imposing a date constraint: transaction `txA` passes with
no date filter but is excluded by this one. -/
theorem claim_C10_counterexample :
    parseFilters demoDateParse (QueryParam.str "2024-06-01")
        QueryParam.null (QueryParam.str "") (QueryParam.str "")
        (QueryParam.str "") (QueryParam.str "") (QueryParam.str "")
        (QueryParam.str "") = some demoFilters ∧
      buildDateRange demoFilters = some (100, 0) ∧
      matchesDateRange (buildDateRange demoFilters) txA = false ∧
      matchesDateRange none txA = true := by
  refine ⟨by decide, by decide, by decide, by decide⟩

/-- C10 (amended): on every successful filter parse `dateRange` is set
to (dateFrom, dateTo) — absent date parameters do not suppress it but
are coerced to the epoch date 0, which stands in for the missing
endpoint and thus imposes a date constraint; and a request whose
`residentIds` string parameter is absent (null) never parses
successfully (the route responds 400). -/
theorem claim_C10_date_range_always_set (p : String → Option Int)
    (dateFrom dateTo residentIds contractIds houseIds statuses
      serviceCode search : QueryParam) (f : ParsedFilters)
    (h : parseFilters p dateFrom dateTo residentIds contractIds houseIds
      statuses serviceCode search = some f) :
    buildDateRange f = some (f.dateFrom, f.dateTo) ∧
      (dateFrom = QueryParam.null → f.dateFrom = 0) ∧
      (dateTo = QueryParam.null → f.dateTo = 0) ∧
      (∀ q1 q2 q4 q5 q6 q7 q8 : QueryParam,
        parseFilters p q1 q2 QueryParam.null q4 q5 q6 q7 q8 = none) := by
  unfold parseFilters at h
  simp only [Option.bind_eq_some, Option.map_eq_some'] at h
  obtain ⟨df, hdf, dt, hdt, ri, hri, ci, hci, hi, hhi, st, hst, sc, hsc,
    se, hse, hf⟩ := h
  subst hf
  refine ⟨by simp [buildDateRange, dateTruthy], ?_, ?_, ?_⟩
  · intro hn
    subst hn
    simp only [coerceDate, Option.some_inj] at hdf
    simp [← hdf]
  · intro hn
    subst hn
    simp only [coerceDate, Option.some_inj] at hdt
    simp [← hdt]
  · intro q1 q2 q4 q5 q6 q7 q8
    cases h1 : coerceDate p q1 <;> cases h2 : coerceDate p q2 <;>
      simp [parseFilters, h1, h2, asString]

theorem claim_C10_witness :
    parseFilters demoDateParse (QueryParam.str "2024-06-01")
        QueryParam.null (QueryParam.str "") (QueryParam.str "")
        (QueryParam.str "") (QueryParam.str "") (QueryParam.str "")
        (QueryParam.str "") = some demoFilters ∧
      buildDateRange demoFilters =
        some (demoFilters.dateFrom, demoFilters.dateTo) ∧
      demoFilters.dateTo = 0 :=
  ⟨by decide,
   (claim_C10_date_range_always_set demoDateParse
      (QueryParam.str "2024-06-01") QueryParam.null (QueryParam.str "")
      (QueryParam.str "") (QueryParam.str "") (QueryParam.str "")
      (QueryParam.str "") (QueryParam.str "") demoFilters (by decide)).1,
   (claim_C10_date_range_always_set demoDateParse
      (QueryParam.str "2024-06-01") QueryParam.null (QueryParam.str "")
      (QueryParam.str "") (QueryParam.str "") (QueryParam.str "")
      (QueryParam.str "") (QueryParam.str "") demoFilters
      (by decide)).2.2.1 rfl⟩

end TakeTwo
